import Mathlib

/-!
Verification of `src/server/services/pythonScraper.py` (contentspy).

The scraper's network effects, randomness (user agents, Google domains,
randomized URL parameters, delays) and the external HTML extractor are
absorbed into explicit environment parameters; the control flow (block
checks, GET fallbacks, pagination, dedup/merge, caps) is embedded
faithfully, line by line, from the Python source.
-/

namespace ContentSpy

/-! ### Character-list string machinery (models Python `str` operations) -/

/-- `leadsL needle hay` : `needle` is an initial run of `hay`
(models Python `str.startswith`). -/
def leadsL : List Char → List Char → Bool
  | [], _ => true
  | _ :: _, [] => false
  | a :: as, b :: bs => a == b && leadsL as bs

/-- `occursIn needle hay` : `needle` occurs contiguously inside `hay`
(models Python `needle in hay`). -/
def occursIn (needle : List Char) : List Char → Bool
  | [] => needle.isEmpty
  | c :: rest => leadsL needle (c :: rest) || occursIn needle rest

/-- ASCII lower-casing of one character (models `str.lower` on the ASCII
texts this program compares). -/
def lowerC (c : Char) : Char :=
  if 'A' ≤ c && c ≤ 'Z' then Char.ofNat (c.toNat + 32) else c

/-- Lower-case a character list. -/
def lowerL (cs : List Char) : List Char := cs.map lowerC

/-- `containsLower s marker` models Python `marker in s.lower()`. -/
def containsLower (s marker : String) : Bool :=
  occursIn marker.data (lowerL s.data)

/-- Python/JS whitespace test for `strip`/`trim`. -/
def isSpaceC (c : Char) : Bool :=
  c == ' ' || c == '\t' || c == '\n' || c == '\r'

/-- Models Python `str.strip()` / JS `String.trim()`. -/
def trimL (cs : List Char) : List Char :=
  ((cs.dropWhile isSpaceC).reverse.dropWhile isSpaceC).reverse

/-- String wrapper for `trimL`. -/
def trimS (s : String) : String := ⟨trimL s.data⟩

/-- Left-to-right non-overlapping removal of every occurrence of `"www."`,
modelling `domain.replace('www.', '')` (pythonScraper.py line 492). -/
def stripWwwAll : List Char → List Char
  | 'w' :: 'w' :: 'w' :: '.' :: rest => stripWwwAll rest
  | c :: rest => c :: stripWwwAll rest
  | [] => []

/-! ### Data model -/

/-- A candidate record produced by the external extractor (title/link/snippet
read off one result container or DOM element; a missing title or link is
encoded as `""`, exactly as a falsy value in the source). -/
structure RawCand where
  title : String
  link : String
  snippet : String
deriving DecidableEq, Repr

/-- The dictionaries appended to `results` / `all_results`
(pythonScraper.py lines 285-291 and 454-460). -/
structure ResultRecord where
  title : String
  link : String
  snippet : String
  position : Nat
  source : String
deriving DecidableEq, Repr

/-- Status code and body text of one HTTP response. -/
structure HttpResponse where
  status : Nat
  body : String
deriving DecidableEq, Repr

/-- Result of one transport operation: a response, or a raised exception
(timeout, connection error). -/
inductive TransportResult where
  | ok (r : HttpResponse)
  | exn
deriving DecidableEq, Repr

/-- Modelled from the spec: the `FetchOutcome` tags of the Block Detector
(section 4.3) — `Ok`, `SoftBlocked`, `HardError`. -/
inductive FetchOutcome where
  | ok
  | softBlocked
  | hardError
deriving DecidableEq, Repr

/-- Modelled from the spec (section 4.3 Block Detector): (a) transport
failure → HardError; (b) status 429 or body containing "captcha" /
"unusual traffic" case-insensitively → SoftBlocked; (c) other non-200 →
HardError; (d) otherwise Ok.  This is the specification-side classifier;
the code-side checks below are compared against it. -/
def classifySpec : TransportResult → FetchOutcome
  | .exn => .hardError
  | .ok r =>
    if r.status == 429 || containsLower r.body "captcha"
        || containsLower r.body "unusual traffic" then .softBlocked
    else if r.status == 200 then .ok
    else .hardError

/-! ### Code-side block checks, straight from the source -/

/-- Line 392: `response.status_code == 429 or "captcha" in
response.text.lower() or "unusual traffic" in response.text.lower()`. -/
def postBlockCheck (r : HttpResponse) : Bool :=
  r.status == 429 || containsLower r.body "captcha"
    || containsLower r.body "unusual traffic"

/-- Line 403 (GET-fallback recheck): `response.status_code == 429 or
"captcha" in response.text.lower()` — note: no "unusual traffic" test. -/
def getBlockCheck (r : HttpResponse) : Bool :=
  r.status == 429 || containsLower r.body "captcha"

/-- Lines 242/263 (pyppeteer): `"captcha" in content.lower() or
"unusual traffic" in content.lower()`. -/
def pyppBlockCheck (body : String) : Bool :=
  containsLower body "captcha" || containsLower body "unusual traffic"

/-- Line 536 (similar-websites): `response.status_code != 200 or
"captcha" in response.text.lower()`. -/
def simBlockCheck (r : HttpResponse) : Bool :=
  r.status != 200 || containsLower r.body "captcha"

/-! ### scrape_google_with_requests_html (lines 326-487) -/

/-- Environment of one page of the requests-html loop: the POST attempt
(line 384), the GET issued when the POST response looks blocked (line 401),
and the GET issued from the `except` handler when a request raised
(line 412). -/
structure PageEnv where
  post : TransportResult
  blockGet : TransportResult
  exnGet : TransportResult

/-- What the per-page fetch block (lines 373-419) decides before parsing:
abort the whole loop (an exception escaped to the outer `try`), skip to the
next page (`continue`), or hand a response to the parsing code. -/
inductive PageStep where
  | abort
  | skip
  | gotResponse (r : HttpResponse)
deriving DecidableEq, Repr

/-- Lines 373-412: POST; if the POST response passes `postBlockCheck`, GET
fallback rechecked with `getBlockCheck` (blocked again → sleep and
`continue`); if a request raised, the `except` handler issues a plain GET
whose own failure escapes to the outer `try`. -/
def fetchPage (e : PageEnv) : PageStep :=
  match e.post with
  | .exn =>
    match e.exnGet with
    | .exn => .abort
    | .ok r => .gotResponse r
  | .ok r =>
    if postBlockCheck r then
      match e.blockGet with
      | .exn =>
        match e.exnGet with
        | .exn => .abort
        | .ok r2 => .gotResponse r2
      | .ok r1 => if getBlockCheck r1 then .skip else .gotResponse r1
    else .gotResponse r

/-- Lines 434-463: validate each extracted container — stripped title
nonempty, link nonempty and starting with "http" — and build the record;
`position` is `len(all_results) + 1` at extraction time (line 458), the
same value for every candidate of the page. -/
def validateHtml (cands : List RawCand) (accLen : Nat) : List ResultRecord :=
  cands.filterMap (fun c =>
    let t := trimS c.title
    if (t != "") && (c.link != "") && leadsL "http".data c.link.data then
      some { title := t, link := c.link, snippet := trimS c.snippet,
             position := accLen + 1, source := "google-requests-html" }
    else none)

/-- Lines 468-473 (identically 303-308): append a candidate unless its link
already occurs in the accumulated results; stop once the limit is reached. -/
def addUnique (limit : Nat) : List ResultRecord → List ResultRecord → List ResultRecord
  | acc, [] => acc
  | acc, c :: rest =>
    let acc2 := if acc.any (fun r => r.link == c.link) then acc else acc ++ [c]
    if limit ≤ acc2.length then acc2 else addUnique limit acc2 rest

/-- Lines 168/334: `min(limit // 10 + (1 if limit % 10 > 0 else 0), 20)`. -/
def maxPages (limit : Nat) : Nat :=
  min (limit / 10 + (if limit % 10 > 0 then 1 else 0)) 20

/-- The page loop of `scrape_google_with_requests_html` (lines 337-481).
Arguments: fuel = pages still allowed, current page number, pages attempted
so far, accumulated results.  Returns the accumulated results and the
number of pages attempted. -/
def goHtml (extract : String → List RawCand) (envs : Nat → PageEnv) (limit : Nat) :
    Nat → Nat → Nat → List ResultRecord → List ResultRecord × Nat
  | 0, _, att, acc => (acc, att)
  | n + 1, p, att, acc =>
    if limit ≤ acc.length then (acc, att)
    else
      match fetchPage (envs p) with
      | .abort => (acc, att + 1)
      | .skip => goHtml extract envs limit n (p + 1) (att + 1) acc
      | .gotResponse r =>
        if r.status != 200 then goHtml extract envs limit n (p + 1) (att + 1) acc
        else
          let pageResults := validateHtml (extract r.body) acc.length
          let acc2 := addUnique limit acc pageResults
          if pageResults.isEmpty then (acc2, att + 1)
          else goHtml extract envs limit n (p + 1) (att + 1) acc2

/-- `scrape_google_with_requests_html(query, limit)` (lines 326-487); the
query string, URL building and randomized identity live in `envs`, and the
HTML parsing of a body lives in `extract`.  Returns `all_results[:limit]`. -/
def scrape_google_with_requests_html (extract : String → List RawCand)
    (envs : Nat → PageEnv) (limit : Nat) : List ResultRecord :=
  ((goHtml extract envs limit (maxPages limit) 0 0 []).1).take limit

/-- Number of pages attempted by the requests-html loop. -/
def requestsHtmlPages (extract : String → List RawCand)
    (envs : Nat → PageEnv) (limit : Nat) : Nat :=
  (goHtml extract envs limit (maxPages limit) 0 0 []).2

/-! ### scrape_google_with_pyppeteer (lines 143-324) -/

/-- Environment of one page of the pyppeteer loop: `nav` is the rendered
page content after `page.goto` (`none`: the navigation or page setup
raised, escaping to the function-level `try`); `retryContent` is the page
content after the single CAPTCHA interaction of lines 252-262 (`none`: the
interaction itself raised, which `break`s the loop at line 259). -/
structure PyppPageEnv where
  nav : Option String
  retryContent : Option String

/-- Lines 238-265: navigate, check the content for CAPTCHA markers, attempt
one interaction and re-check; `none` means the loop ends here (a `break` or
an exception), `some c` is the content handed to extraction. -/
def pyppStep (e : PyppPageEnv) : Option String :=
  match e.nav with
  | none => none
  | some content =>
    if pyppBlockCheck content then
      match e.retryContent with
      | none => none
      | some c2 => if pyppBlockCheck c2 then none else some c2
    else some content

/-- Lines 268-298 (the in-page JavaScript): walk the result elements with
their DOM index, keep those with nonempty trimmed title, nonempty link
starting with "http", and record `position := index + 1` — the element's
index on its source page. -/
def validateJs (cands : List RawCand) : List ResultRecord :=
  cands.enum.filterMap (fun ic =>
    let t := trimS ic.2.title
    if (t != "") && (ic.2.link != "") && leadsL "http".data ic.2.link.data then
      some { title := t, link := ic.2.link, snippet := trimS ic.2.snippet,
             position := ic.1 + 1, source := "google-pyppeteer" }
    else none)

/-- The page loop of `scrape_google_with_pyppeteer` (lines 171-315): same
shape as `goHtml`, but no block on an empty extraction — after merging, the
loop always proceeds to the next page. -/
def goPypp (extractJs : String → List RawCand) (envs : Nat → PyppPageEnv) (limit : Nat) :
    Nat → Nat → Nat → List ResultRecord → List ResultRecord × Nat
  | 0, _, att, acc => (acc, att)
  | n + 1, p, att, acc =>
    if limit ≤ acc.length then (acc, att)
    else
      match pyppStep (envs p) with
      | none => (acc, att + 1)
      | some content =>
        goPypp extractJs envs limit n (p + 1) (att + 1)
          (addUnique limit acc (validateJs (extractJs content)))

/-- `scrape_google_with_pyppeteer(query, limit)` (lines 143-324); browser
setup, URL building and identity randomization live in `envs`, the in-page
extraction in `extractJs`.  Returns `results[:limit]` (line 324, reached
also when an exception ended the loop). -/
def scrape_google_with_pyppeteer (extractJs : String → List RawCand)
    (envs : Nat → PyppPageEnv) (limit : Nat) : List ResultRecord :=
  ((goPypp extractJs envs limit (maxPages limit) 0 0 []).1).take limit

/-- Number of pages attempted by the pyppeteer loop. -/
def pyppPages (extractJs : String → List RawCand)
    (envs : Nat → PyppPageEnv) (limit : Nat) : Nat :=
  (goPypp extractJs envs limit (maxPages limit) 0 0 []).2

/-! ### urlparse / extract_domain (lines 66-76) -/

/-- Split a character list at its first `':'`.  Models the scheme
separation of `urllib.parse.urlparse`. -/
def splitColon : List Char → Option (List Char × List Char)
  | [] => none
  | c :: rest =>
    if c = ':' then some ([], rest)
    else (splitColon rest).map (fun ba => (c :: ba.1, ba.2))

/-- A valid URL scheme name: a letter followed by letters, digits,
`'+'`, `'-'`, `'.'`. -/
def isSchemeName (cs : List Char) : Bool :=
  match cs with
  | [] => false
  | c :: rest => c.isAlpha && rest.all (fun ch => ch.isAlphanum || ch == '+' || ch == '-' || ch == '.')

/-- The URL with its scheme removed when a well-formed scheme is present
(otherwise unchanged), as `urlparse` does before looking for a netloc. -/
def schemeRest (cs : List Char) : List Char :=
  match splitColon cs with
  | some ba => if isSchemeName ba.1 then ba.2 else cs
  | none => cs

/-- CPython `urlsplit`'s pre-parse sanitization (`urllib/parse.py`):
`url.lstrip(_WHATWG_C0_CONTROL_OR_SPACE)` — dropping leading characters
with code point ≤ 0x20 — followed by removal of every occurrence of the
`_UNSAFE_URL_BYTES_TO_REMOVE` characters tab, CR and LF. -/
def sanitizeUrl (cs : List Char) : List Char :=
  (cs.dropWhile (fun c => c.toNat ≤ 32)).filter
    (fun c => !(c == '\t' || c == '\r' || c == '\n'))

/-- The raw netloc of a URL: after `urlsplit`'s sanitization, present only
when the remainder after the scheme starts with `"//"`, and then runs up
to the first `'/'`, `'?'` or `'#'` — as in `urllib.parse.urlsplit`. -/
def netlocChars (url : String) : List Char :=
  if leadsL ['/', '/'] (schemeRest (sanitizeUrl url.data)) then
    ((schemeRest (sanitizeUrl url.data)).drop 2).takeWhile
      (fun c => !(c == '/' || c == '?' || c == '#'))
  else []

/-- `urlparse` raises `ValueError` on a netloc with an unbalanced square
bracket; this predicate is that exception condition. -/
def bracketBad (netloc : List Char) : Bool :=
  (netloc.contains '[' && !netloc.contains ']')
    || (netloc.contains ']' && !netloc.contains '[')

/-- Model of `urlparse(url).netloc`: `none` models the raised
`ValueError`, `some n` the parsed netloc. -/
def pythonUrlparseNetloc (url : String) : Option String :=
  if bracketBad (netlocChars url) then none else some ⟨netlocChars url⟩

/-- The characters of `"www."`. -/
def wwwChars : List Char := ['w', 'w', 'w', '.']

/-- `extract_domain` (lines 66-76): parse the URL inside `try`; on any
exception return `""`; strip one leading `"www."` from the netloc
(`domain[4:]`) before returning it. -/
def extract_domain (url : String) : String :=
  match pythonUrlparseNetloc url with
  | none => ""
  | some netloc =>
    ⟨if leadsL wwwChars netloc.data then netloc.data.drop 4 else netloc.data⟩

/-! ### get_similar_websites_with_python (lines 489-591) -/

/-- Environment of one templated competitor query: the POST attempt
(line 529) and the single GET fallback that runs either when the POST
response looks blocked (line 539) or when the POST raised (line 544) —
at most one GET executes per query. -/
structure SimQueryEnv where
  post : TransportResult
  get : TransportResult

/-- Lines 528-544: POST; on `simBlockCheck` or a raised POST, one GET
fallback; a raised GET is caught by the per-query `except` (line 582),
modelled as `none` (the query is skipped). -/
def simFetch (e : SimQueryEnv) : Option HttpResponse :=
  match e.post with
  | .exn =>
    match e.get with
    | .exn => none
    | .ok r => some r
  | .ok r =>
    if simBlockCheck r then
      match e.get with
      | .exn => none
      | .ok r2 => some r2
    else some r

/-- Lines 554-569, one link: skip if the link text contains `"google.com"`
or the subject's domain name anywhere; otherwise extract its domain and
append it unless empty or already collected. -/
def simLinkStep (domainName : String) (comps : List String) (link : String) : List String :=
  if occursIn "google.com".data link.data || occursIn domainName.data link.data then comps
  else
    let cd := extract_domain link
    if (cd == "") || comps.contains cd then comps
    else comps ++ [cd]

/-- Lines 552-569: fold `simLinkStep` over the page's absolute links. -/
def collectCompetitors (domainName : String) (links : List String) : List String :=
  links.foldl (simLinkStep domainName) []

/-- Lines 574-576: append each page competitor not already present and
different from the subject's domain name. -/
def mergeCompetitors (domainName : String) (all comps : List String) : List String :=
  comps.foldl (fun a c => if !a.contains c && c != domainName then a ++ [c] else a) all

/-- The query loop of `get_similar_websites_with_python` (lines 506-580):
break once 15 competitors are collected; skip a query on a raised request
or a non-200 response; otherwise collect and merge the page's domains. -/
def simGo (pageLinks : String → List String) (envs : Nat → SimQueryEnv)
    (domainName : String) : Nat → Nat → List String → List String
  | 0, _, all => all
  | n + 1, i, all =>
    if 15 ≤ all.length then all
    else
      match simFetch (envs i) with
      | none => simGo pageLinks envs domainName n (i + 1) all
      | some r =>
        if r.status != 200 then simGo pageLinks envs domainName n (i + 1) all
        else simGo pageLinks envs domainName n (i + 1)
          (mergeCompetitors domainName all (collectCompetitors domainName (pageLinks r.body)))

/-- `get_similar_websites_with_python(domain)` (lines 489-591):
`domain_name = domain.replace('www.', '')`, four templated queries
(environment-indexed 0..3), and finally `all_competitors[:15]`.  The
response's `absolute_links` for a body live in `pageLinks`. -/
def get_similar_websites_with_python (pageLinks : String → List String)
    (envs : Nat → SimQueryEnv) (domain : String) : List String :=
  (simGo pageLinks envs ⟨stripWwwAll domain.data⟩ 4 0 []).take 15

/-! ### Concrete fixtures used to settle individual claims -/

/-- A 200 response whose body is a rate-limit notice. -/
def c3Resp : HttpResponse := ⟨200, "unusual traffic"⟩

/-- Extractor yielding one valid candidate from the blocked body. -/
def c3Extract : String → List RawCand := fun b =>
  if b = "unusual traffic" then [⟨"T", "http://x/", ""⟩] else []

/-- Page environment: the POST is rate-limited (429), the GET fallback
returns `c3Resp`. -/
def c3Envs : Nat → PageEnv := fun _ => ⟨.ok ⟨429, ""⟩, .ok c3Resp, .exn⟩

/-- Eight candidates, of which two repeat an earlier link
(`http://a1/` and `http://a2/` again). -/
def c4Cands : List RawCand :=
  [⟨"t1", "http://a1/", ""⟩, ⟨"t2", "http://a2/", ""⟩, ⟨"t3", "http://a1/", ""⟩,
   ⟨"t4", "http://a3/", ""⟩, ⟨"t5", "http://a2/", ""⟩, ⟨"t6", "http://a4/", ""⟩,
   ⟨"t7", "http://a5/", ""⟩, ⟨"t8", "http://a6/", ""⟩]

/-- Extractor yielding the eight candidates on body `"P"`. -/
def c4Extract : String → List RawCand := fun b => if b = "P" then c4Cands else []

/-- Every page fetches cleanly with body `"P"`. -/
def c4Envs : Nat → PageEnv := fun _ => ⟨.ok ⟨200, "P"⟩, .exn, .exn⟩

/-- Every pyppeteer page renders content `"P"`. -/
def c4EnvsP : Nat → PyppPageEnv := fun _ => ⟨some "P", none⟩

/-- Extractor: body `"F"` yields one candidate, anything else none. -/
def c5Extract : String → List RawCand := fun b =>
  if b = "F" then [⟨"T", "http://y/", ""⟩] else []

/-- Pyppeteer pages: page 0 renders the empty-yield body `"E"`,
later pages render `"F"`. -/
def c5Envs : Nat → PyppPageEnv := fun i => ⟨some (if i = 0 then "E" else "F"), none⟩

/-- Extractor: body `"G"` yields one candidate. -/
def c7Extract : String → List RawCand := fun b =>
  if b = "G" then [⟨"T", "http://y/", ""⟩] else []

/-- Page environments: page 0 answers 500 (a hard error), page 1 answers
200 with body `"G"`. -/
def c7Envs : Nat → PageEnv := fun i =>
  ⟨.ok (if i = 0 then ⟨500, ""⟩ else ⟨200, "G"⟩), .exn, .exn⟩

/-- Result-page links: one to the subject host, one to a Google mirror,
and one whose embedded tab defeats the `"google.com" in link` substring
test while `urlsplit`'s sanitization still parses the host as
`google.com`. -/
def c8Links : String → List String := fun b =>
  if b = "body0" then
    ["http://wwww.example.com/", "https://www.google.co.uk/a", "http://goo\tgle.com/x"]
  else []

/-- Query environments: query 0 succeeds with body `"body0"`, the rest
raise. -/
def c8Envs : Nat → SimQueryEnv := fun i =>
  if i = 0 then ⟨.ok ⟨200, "body0"⟩, .exn⟩ else ⟨.exn, .exn⟩

/-! ### Lemmas about the string machinery -/

theorem leadsL_iff (a : List Char) : ∀ b, leadsL a b = true ↔ ∃ t, b = a ++ t := by
  induction a with
  | nil => intro b; simp [leadsL]
  | cons x xs ih =>
    intro b
    cases b with
    | nil => simp [leadsL]
    | cons y ys =>
      simp only [leadsL, Bool.and_eq_true, beq_iff_eq, ih, List.cons_append,
        List.cons.injEq]
      constructor
      · rintro ⟨rfl, t, rfl⟩; exact ⟨t, rfl, rfl⟩
      · rintro ⟨t, rfl, rfl⟩; exact ⟨rfl, t, rfl⟩

theorem occursIn_iff (a : List Char) : ∀ b, occursIn a b = true ↔ ∃ s t, b = s ++ a ++ t := by
  intro b
  induction b with
  | nil =>
    simp only [occursIn, List.isEmpty_iff]
    constructor
    · rintro rfl; exact ⟨[], [], rfl⟩
    · rintro ⟨s, t, h⟩
      rcases List.append_eq_nil.mp h.symm with ⟨h1, -⟩
      exact (List.append_eq_nil.mp h1).2
  | cons c rest ih =>
    simp only [occursIn, Bool.or_eq_true, leadsL_iff, ih]
    constructor
    · rintro (⟨t, ht⟩ | ⟨s, t, ht⟩)
      · exact ⟨[], t, by simp [ht]⟩
      · exact ⟨c :: s, t, by simp [ht]⟩
    · rintro ⟨s, t, ht⟩
      cases s with
      | nil => exact Or.inl ⟨t, by simpa using ht⟩
      | cons c2 s2 =>
        simp only [List.cons_append, List.cons.injEq] at ht
        exact Or.inr ⟨s2, t, ht.2⟩

theorem occursIn_nil_left (b : List Char) : occursIn [] b = true :=
  (occursIn_iff [] b).mpr ⟨[], b, rfl⟩

theorem occursIn_self (a : List Char) : occursIn a a = true :=
  (occursIn_iff a a).mpr ⟨[], [], by simp⟩

theorem occursIn_trans {a b c : List Char} (h1 : occursIn a b = true)
    (h2 : occursIn b c = true) : occursIn a c = true := by
  rcases (occursIn_iff a b).mp h1 with ⟨s, t, rfl⟩
  rcases (occursIn_iff _ c).mp h2 with ⟨u, v, rfl⟩
  exact (occursIn_iff a _).mpr ⟨u ++ s, t ++ v, by simp [List.append_assoc]⟩

theorem splitColon_eq : ∀ cs b a, splitColon cs = some (b, a) → cs = b ++ ':' :: a := by
  intro cs
  induction cs with
  | nil => intro b a h; simp [splitColon] at h
  | cons c rest ih =>
    intro b a h
    rw [splitColon] at h
    split at h
    · next hc =>
      injection h with h2
      injection h2 with hb ha
      subst hb; subst ha; subst hc; simp
    · next hc =>
      cases hsp : splitColon rest with
      | none => rw [hsp] at h; simp at h
      | some ba =>
        rw [hsp] at h
        simp only [Option.map_some', Option.some.injEq] at h
        injection h with hb ha
        subst hb; subst ha
        rw [ih ba.1 ba.2 (by rw [hsp])]
        simp

theorem schemeRest_suffix (cs : List Char) : ∃ s, cs = s ++ schemeRest cs := by
  rw [schemeRest]
  split
  · next ba hsp =>
    split
    · exact ⟨ba.1 ++ [':'], by simpa using splitColon_eq cs ba.1 ba.2 (by simpa using hsp)⟩
    · exact ⟨[], rfl⟩
  · exact ⟨[], rfl⟩

/-! ### Invariants of the dedup/merge and pagination loops -/

theorem addUnique_nodup (limit : Nat) (cands : List ResultRecord) :
    ∀ acc, (acc.map ResultRecord.link).Nodup →
      ((addUnique limit acc cands).map ResultRecord.link).Nodup := by
  induction cands with
  | nil => intro acc h; simpa [addUnique] using h
  | cons c rest ih =>
    intro acc h
    rw [addUnique]
    cases ha : acc.any (fun r => r.link == c.link) with
    | true =>
      simp only [ha, if_true]
      split
      · exact h
      · exact ih acc h
    | false =>
      have hnotin : c.link ∉ acc.map ResultRecord.link := by
        intro hmem
        rcases List.mem_map.mp hmem with ⟨r, hr, hlink⟩
        have := (List.any_eq_false.mp ha) r hr
        exact this (by simp [hlink])
      have h2 : ((acc ++ [c]).map ResultRecord.link).Nodup := by
        rw [List.map_append]
        rw [List.nodup_append]
        refine ⟨h, by simp, ?_⟩
        intro x hx hy
        simp only [List.map_cons, List.map_nil, List.mem_singleton] at hy
        subst hy
        exact hnotin hx
      simp only [ha, Bool.false_eq_true, if_false]
      split
      · exact h2
      · exact ih (acc ++ [c]) h2

theorem goHtml_nodup (extract : String → List RawCand) (envs : Nat → PageEnv)
    (limit : Nat) :
    ∀ n p att acc, (acc.map ResultRecord.link).Nodup →
      (((goHtml extract envs limit n p att acc).1.map ResultRecord.link).Nodup) := by
  intro n
  induction n with
  | zero => intro p att acc h; simpa [goHtml] using h
  | succ n ih =>
    intro p att acc h
    rw [goHtml]
    split
    · exact h
    · split
      · exact h
      · exact ih _ _ _ h
      · split
        · exact ih _ _ _ h
        · dsimp only
          split
          · exact addUnique_nodup _ _ _ h
          · exact ih _ _ _ (addUnique_nodup _ _ _ h)

theorem goPypp_nodup (extractJs : String → List RawCand) (envs : Nat → PyppPageEnv)
    (limit : Nat) :
    ∀ n p att acc, (acc.map ResultRecord.link).Nodup →
      (((goPypp extractJs envs limit n p att acc).1.map ResultRecord.link).Nodup) := by
  intro n
  induction n with
  | zero => intro p att acc h; simpa [goPypp] using h
  | succ n ih =>
    intro p att acc h
    rw [goPypp]
    split
    · exact h
    · split
      · exact h
      · exact ih _ _ _ (addUnique_nodup _ _ _ h)

theorem goHtml_att_le (extract : String → List RawCand) (envs : Nat → PageEnv)
    (limit : Nat) :
    ∀ n p att acc, (goHtml extract envs limit n p att acc).2 ≤ att + n := by
  intro n
  induction n with
  | zero => intro p att acc; simp [goHtml]
  | succ n ih =>
    intro p att acc
    rw [goHtml]

    split
    · dsimp only; omega
    · split
      · dsimp only; omega
      · exact le_trans (ih _ _ _) (by omega)
      · split
        · exact le_trans (ih _ _ _) (by omega)
        · dsimp only
          split
          · dsimp only; omega
          · exact le_trans (ih _ _ _) (by omega)

theorem goPypp_att_le (extractJs : String → List RawCand) (envs : Nat → PyppPageEnv)
    (limit : Nat) :
    ∀ n p att acc, (goPypp extractJs envs limit n p att acc).2 ≤ att + n := by
  intro n
  induction n with
  | zero => intro p att acc; simp [goPypp]
  | succ n ih =>
    intro p att acc
    rw [goPypp]
    split
    · dsimp only; omega
    · split
      · dsimp only; omega
      · exact le_trans (ih _ _ _) (by omega)

theorem maxPages_le_twenty (limit : Nat) : maxPages limit ≤ 20 := by
  rw [maxPages]; omega

theorem maxPages_le_ceil (limit : Nat) : maxPages limit ≤ (limit + 9) / 10 := by
  rw [maxPages]
  split <;> omega

theorem addUnique_singleton (limit : Nat) (acc : List ResultRecord) (c : ResultRecord) :
    addUnique limit acc [c] =
      if acc.any (fun r => r.link == c.link) then acc else acc ++ [c] := by
  rw [addUnique]
  cases ha : acc.any (fun r => r.link == c.link) with
  | true =>
    simp only [ha, if_true]
    split
    · rfl
    · rw [addUnique]
  | false =>
    simp only [ha, Bool.false_eq_true, if_false]
    split
    · rfl
    · rw [addUnique]

theorem addUnique_readd (limit : Nat) (acc : List ResultRecord) (c : ResultRecord) :
    (addUnique limit (addUnique limit acc [c]) [c]).length =
      (addUnique limit acc [c]).length := by
  simp only [addUnique_singleton]
  cases ha : acc.any (fun r => r.link == c.link) with
  | true => simp [ha]
  | false => simp [ha, List.any_append]

/-! ### Invariants of the competitor-discovery loop -/

theorem mergeCompetitors_inv (dn : String) (comps : List String) :
    ∀ all, all.Nodup → dn ∉ all →
      (mergeCompetitors dn all comps).Nodup ∧ dn ∉ mergeCompetitors dn all comps := by
  induction comps with
  | nil =>
    intro all h1 h2
    exact ⟨h1, h2⟩
  | cons c rest ih =>
    intro all h1 h2
    rw [mergeCompetitors, List.foldl_cons]
    cases hcond : (!all.contains c && c != dn) with
    | false =>
      simp only [hcond, Bool.false_eq_true, if_false]
      exact ih all h1 h2
    | true =>
      have hnotin : c ∉ all := by
        rcases Bool.and_eq_true .. ▸ hcond with ⟨hna, -⟩
        simpa using hna
      have hne : c ≠ dn := by
        rcases Bool.and_eq_true .. ▸ hcond with ⟨-, hnd⟩
        exact bne_iff_ne.mp hnd
      simp only [hcond, if_true]
      refine ih (all ++ [c]) ?_ ?_
      · rw [List.nodup_append]
        refine ⟨h1, by simp, ?_⟩
        intro x hx hy
        simp only [List.mem_singleton] at hy
        subst hy
        exact hnotin hx
      · intro hmem
        rcases List.mem_append.mp hmem with hm | hm
        · exact h2 hm
        · exact hne (List.mem_singleton.mp hm).symm

theorem simGo_inv (pageLinks : String → List String) (envs : Nat → SimQueryEnv)
    (dn : String) :
    ∀ n i all, all.Nodup → dn ∉ all →
      (simGo pageLinks envs dn n i all).Nodup ∧ dn ∉ simGo pageLinks envs dn n i all := by
  intro n
  induction n with
  | zero => intro i all h1 h2; exact ⟨h1, h2⟩
  | succ n ih =>
    intro i all h1 h2
    rw [simGo]
    split
    · exact ⟨h1, h2⟩
    · split
      · exact ih _ _ h1 h2
      · split
        · exact ih _ _ h1 h2
        · rcases mergeCompetitors_inv dn _ all h1 h2 with ⟨m1, m2⟩
          exact ih _ _ m1 m2

/-- Equational description of `extract_domain`: on a netloc with an
unbalanced bracket (the `urlparse` exception) it returns `""`; otherwise it
returns the netloc with one leading `"www."` stripped. -/
theorem extract_domain_eq (url : String) :
    extract_domain url = if bracketBad (netlocChars url) then ""
      else ⟨if leadsL wwwChars (netlocChars url) then
        (netlocChars url).drop 4 else netlocChars url⟩ := by
  rw [extract_domain, pythonUrlparseNetloc]
  cases hb : bracketBad (netlocChars url) with
  | true => simp [hb]
  | false => simp [hb]

/-! ### The claims -/

/-- C1: for every result limit `L > 0` (and any environment of pages,
i.e. any query), both search operations return at most `L` records —
each returns `results[:limit]` (lines 324 and 487). -/
theorem claim_C1_search_capped (extract extractJs : String → List RawCand)
    (envs : Nat → PageEnv) (envsP : Nat → PyppPageEnv) (limit : Nat)
    (_hpos : 0 < limit) :
    (scrape_google_with_requests_html extract envs limit).length ≤ limit ∧
      (scrape_google_with_pyppeteer extractJs envsP limit).length ≤ limit :=
  ⟨List.length_take_le _ _, List.length_take_le _ _⟩

/-- Witness for C1 at limit 3 and an empty environment. -/
theorem claim_C1_search_capped_witness :
    (scrape_google_with_requests_html (fun _ => []) (fun _ => ⟨.exn, .exn, .exn⟩) 3).length ≤ 3 ∧
      (scrape_google_with_pyppeteer (fun _ => []) (fun _ => ⟨none, none⟩) 3).length ≤ 3 :=
  claim_C1_search_capped _ _ _ _ 3 (by decide)

/-- C2: within one query execution, both search operations build result
sets with pairwise distinct links (the dedup loops of lines 468-473 and
303-308 never append a candidate whose link is already present), and
re-feeding an already-accepted candidate to the dedup step never increases
the set's size. -/
theorem claim_C2_links_pairwise_distinct (extract extractJs : String → List RawCand)
    (envs : Nat → PageEnv) (envsP : Nat → PyppPageEnv) (limit : Nat) :
    ((scrape_google_with_requests_html extract envs limit).map ResultRecord.link).Nodup ∧
      ((scrape_google_with_pyppeteer extractJs envsP limit).map ResultRecord.link).Nodup ∧
      ∀ acc c, (addUnique limit (addUnique limit acc [c]) [c]).length =
        (addUnique limit acc [c]).length := by
  refine ⟨?_, ?_, fun acc c => addUnique_readd limit acc c⟩
  · rw [scrape_google_with_requests_html, List.map_take]
    exact List.Nodup.sublist (List.take_sublist _ _)
      (goHtml_nodup extract envs limit (maxPages limit) 0 0 [] (by simp))
  · rw [scrape_google_with_pyppeteer, List.map_take]
    exact List.Nodup.sublist (List.take_sublist _ _)
      (goPypp_nodup extractJs envsP limit (maxPages limit) 0 0 [] (by simp))

/-- C6: within one query execution the number of pages attempted never
exceeds 20 nor `⌈limit/10⌉ = (limit + 9) / 10`, under both fetch
strategies — the loops range over `min(limit // 10 + (1 if limit % 10 > 0
else 0), 20)` pages (lines 168 and 334). -/
theorem claim_C6_page_attempt_caps (extract extractJs : String → List RawCand)
    (envs : Nat → PageEnv) (envsP : Nat → PyppPageEnv) (limit : Nat) :
    (requestsHtmlPages extract envs limit ≤ 20 ∧
      requestsHtmlPages extract envs limit ≤ (limit + 9) / 10) ∧
      (pyppPages extractJs envsP limit ≤ 20 ∧
        pyppPages extractJs envsP limit ≤ (limit + 9) / 10) := by
  have h1 := goHtml_att_le extract envs limit (maxPages limit) 0 0 []
  have h2 := goPypp_att_le extractJs envsP limit (maxPages limit) 0 0 []
  have m1 := maxPages_le_twenty limit
  have m2 := maxPages_le_ceil limit
  rw [requestsHtmlPages, pyppPages]
  exact ⟨⟨by omega, by omega⟩, by omega, by omega⟩

/-- C9: `extract_domain` is total — every input yields a string; a parse
exception (modelled: `urlparse`'s unbalanced-bracket `ValueError`) yields
`""`; and one leading `"www."` on the parsed host is stripped before the
host is returned. -/
theorem claim_C9_extract_domain_total (url : String) :
    (pythonUrlparseNetloc url = none → extract_domain url = "") ∧
      (pythonUrlparseNetloc url = none ↔ bracketBad (netlocChars url) = true) ∧
      ∀ netloc, pythonUrlparseNetloc url = some netloc →
        (leadsL wwwChars netloc.data = true →
          extract_domain url = ⟨netloc.data.drop 4⟩) ∧
        (leadsL wwwChars netloc.data = false → extract_domain url = netloc) := by
  refine ⟨fun h => by rw [extract_domain, h], ?_, ?_⟩
  · rw [pythonUrlparseNetloc]
    constructor
    · intro h
      by_contra hb
      simp only [Bool.not_eq_true] at hb
      simp [hb] at h
    · intro hb; simp [hb]
  · intro netloc h
    rw [pythonUrlparseNetloc] at h
    cases hb : bracketBad (netlocChars url) with
    | true => simp [hb] at h
    | false =>
      simp only [hb, Bool.false_eq_true, if_false, Option.some.injEq] at h
      subst h
      rw [extract_domain_eq]
      simp only [hb, Bool.false_eq_true, if_false]
      constructor
      · intro hw
        rw [if_pos hw]
      · intro hw
        rw [if_neg (by simp [hw])]

/-- Witness for C9: the exception path at `"http://[x"` yields `""`, and
the stripping branch at `"http://www.example.com/a"` yields
`"example.com"`. -/
theorem claim_C9_extract_domain_total_witness :
    extract_domain "http://[x" = "" ∧
      extract_domain "http://www.example.com/a" = "www.example.com".drop 4 :=
  ⟨(claim_C9_extract_domain_total "http://[x").1 (by decide),
    (((claim_C9_extract_domain_total "http://www.example.com/a").2.2
      "www.example.com" (by decide)).1 (by decide))⟩

/-- C10: link exclusion in `get_similar_websites_with_python` is a
substring test over the whole URL text — any link containing the subject
domain name anywhere is skipped — and the engine exclusion tests only the
substring `"google.com"`, so a regional mirror such as `google.co.uk`
passes that test and its domain is collected. -/
theorem claim_C10_substring_exclusion :
    (∀ dn comps link, occursIn dn.data link.data = true →
      simLinkStep dn comps link = comps) ∧
      occursIn "google.com".data "https://www.google.co.uk/search".data = false ∧
      simLinkStep "example.com" [] "https://www.google.co.uk/search" = ["google.co.uk"] := by
  refine ⟨?_, by decide, by decide⟩
  intro dn comps link h
  rw [simLinkStep, if_pos (by simp [h])]

/-- Witness for C10: a link containing the subject domain is skipped. -/
theorem claim_C10_substring_exclusion_witness :
    simLinkStep "a" [] "http://a/" = [] :=
  claim_C10_substring_exclusion.1 "a" [] "http://a/" (by decide)

/-- `classifySpec` on a delivered response, written with the code's POST
block check: it is definitionally the spec's rule order (b)-(c)-(d). -/
theorem classifySpec_ok_eq (r : HttpResponse) :
    classifySpec (.ok r) = if postBlockCheck r then .softBlocked
      else if r.status == 200 then .ok else .hardError := rfl

/-- C3, counterexample: the GET-fallback recheck (line 403) does not route
its result through the claimed classification — a 200 fallback response
whose body says "unusual traffic" is SoftBlocked per the spec rules, yet
`getBlockCheck` does not flag it, and the scraper extracts results from
that page instead of retrying/skipping. -/
theorem claim_C3_counterexample :
    classifySpec (.ok c3Resp) = .softBlocked ∧
      getBlockCheck c3Resp = false ∧
      scrape_google_with_requests_html c3Extract c3Envs 1 =
        [⟨"T", "http://x/", "", 1, "google-requests-html"⟩] :=
  ⟨by decide, by decide, by decide⟩

/-- C3, amended: the initial POST check (line 392) matches the spec's
SoftBlocked rule exactly, as does the rendering fetcher's body check at a
delivered (status-200) page; the GET-fallback recheck (line 403) is sound
for SoftBlocked but tests only 429/"captcha" (not "unusual traffic"); a
transport failure is HardError; and a response that passes the block check
with a non-200 status is HardError (skipped, line 415). -/
theorem claim_C3_block_classification_amended (s : Nat) (b : String) :
    (postBlockCheck ⟨s, b⟩ = true ↔ classifySpec (.ok ⟨s, b⟩) = .softBlocked) ∧
      (pyppBlockCheck b = true ↔ classifySpec (.ok ⟨200, b⟩) = .softBlocked) ∧
      (getBlockCheck ⟨s, b⟩ = true → classifySpec (.ok ⟨s, b⟩) = .softBlocked) ∧
      classifySpec .exn = .hardError ∧
      (postBlockCheck ⟨s, b⟩ = false → s ≠ 200 →
        classifySpec (.ok ⟨s, b⟩) = .hardError) := by
  refine ⟨?_, ?_, ?_, rfl, ?_⟩
  · rw [classifySpec_ok_eq]
    cases h : postBlockCheck ⟨s, b⟩ with
    | true => simp [h]
    | false =>
      simp only [h, Bool.false_eq_true, if_false, false_iff]
      split <;> simp
  · rw [classifySpec_ok_eq]
    have hp : postBlockCheck ⟨200, b⟩ = pyppBlockCheck b := by
      simp [postBlockCheck, pyppBlockCheck]
    rw [hp]
    cases h : pyppBlockCheck b with
    | true => simp [h]
    | false => simp [h]
  · intro h
    have hpost : postBlockCheck ⟨s, b⟩ = true := by
      have hsplit : postBlockCheck ⟨s, b⟩ =
          (getBlockCheck ⟨s, b⟩ || containsLower b "unusual traffic") := rfl
      rw [hsplit, h, Bool.true_or]
    rw [classifySpec_ok_eq, if_pos hpost]
  · intro h1 h2
    rw [classifySpec_ok_eq, if_neg (by simp [h1]), if_neg (by simp [h2])]

/-- Witness for the amended C3 at concrete inputs: status 500 is
HardError, and a 429 flagged by the GET check is SoftBlocked. -/
theorem claim_C3_block_classification_amended_witness :
    classifySpec (.ok ⟨500, "x"⟩) = .hardError ∧
      classifySpec (.ok ⟨429, "y"⟩) = .softBlocked :=
  ⟨(claim_C3_block_classification_amended 500 "x").2.2.2.2 (by decide) (by decide),
    (claim_C3_block_classification_amended 429 "y").2.2.1 (by decide)⟩

/-- C4, counterexample: for limit 5 and a first page yielding 8 candidates
with 2 duplicate links, the requests-html scraper returns 5 records — but
their `position` fields are `[1, 1, 1, 1, 1]` (line 458 computes
`len(all_results) + 1` before any of the page's candidates are merged),
not the claimed final ranks `1..5`. -/
theorem claim_C4_counterexample :
    (scrape_google_with_requests_html c4Extract c4Envs 5).length = 5 ∧
      (scrape_google_with_requests_html c4Extract c4Envs 5).map ResultRecord.position =
        [1, 1, 1, 1, 1] ∧
      ¬((scrape_google_with_requests_html c4Extract c4Envs 5).map ResultRecord.position =
        [1, 2, 3, 4, 5]) :=
  ⟨by decide, by decide, by decide⟩

/-- C4, amended: `position` is not re-ranked to the final rank.  In the
scenario (limit 5, first page with 8 candidates of which 2 repeat a link)
both strategies return 5 records; the requests-html records all carry
position 1 (the pre-page accumulated count plus one), and the pyppeteer
records carry their source-page element index plus one, `[1, 2, 4, 6, 7]`
(line 289 passes `index + 1` through). -/
theorem claim_C4_position_amended :
    (scrape_google_with_requests_html c4Extract c4Envs 5).map ResultRecord.position =
      [1, 1, 1, 1, 1] ∧
      (scrape_google_with_pyppeteer c4Extract c4EnvsP 5).length = 5 ∧
      (scrape_google_with_pyppeteer c4Extract c4EnvsP 5).map ResultRecord.position =
        [1, 2, 4, 6, 7] :=
  ⟨by decide, by decide, by decide⟩

/-- C5, counterexample: under the pyppeteer strategy a page yielding zero
extracted candidates does **not** stop pagination — with limit 20, page 1
yields nothing, yet page 2 is fetched (2 pages attempted) and its
candidate is returned. -/
theorem claim_C5_counterexample :
    scrape_google_with_pyppeteer c5Extract c5Envs 20 =
      [⟨"T", "http://y/", "", 1, "google-pyppeteer"⟩] ∧
      pyppPages c5Extract c5Envs 20 = 2 :=
  ⟨by decide, by decide⟩

/-- C5, amended: a fetched page with zero extracted candidates stops
pagination under the requests-html strategy only (line 476); the pyppeteer
loop has no such check and always proceeds to the next page. -/
theorem claim_C5_empty_page_amended :
    (∀ (extract : String → List RawCand) (envs : Nat → PageEnv)
        (limit n p att : Nat) (acc : List ResultRecord) (r : HttpResponse),
      acc.length < limit → fetchPage (envs p) = .gotResponse r → r.status = 200 →
      validateHtml (extract r.body) acc.length = [] →
      goHtml extract envs limit (n + 1) p att acc = (acc, att + 1)) ∧
      ∀ (extractJs : String → List RawCand) (envs : Nat → PyppPageEnv)
          (limit n p att : Nat) (acc : List ResultRecord) (content : String),
        acc.length < limit → pyppStep (envs p) = some content → extractJs content = [] →
        goPypp extractJs envs limit (n + 1) p att acc =
          goPypp extractJs envs limit n (p + 1) (att + 1) acc := by
  constructor
  · intro extract envs limit n p att acc r hlen hf hs hv
    rw [goHtml, if_neg (Nat.not_le.mpr hlen), hf]
    simp [hs, hv, addUnique]
  · intro extractJs envs limit n p att acc content hlen hstep hext
    rw [goPypp, if_neg (Nat.not_le.mpr hlen), hstep]
    simp [hext, validateJs, addUnique]

/-- Witness for the amended C5: one concrete 200-page with zero candidates
stops the requests-html loop; the same situation advances the pyppeteer
loop to the next page. -/
theorem claim_C5_empty_page_amended_witness :
    goHtml (fun _ => []) (fun _ => ⟨.ok ⟨200, "e"⟩, .exn, .exn⟩) 1 1 0 0 [] = ([], 1) ∧
      goPypp (fun _ => []) (fun _ => ⟨some "e", none⟩) 1 1 0 0 [] =
        goPypp (fun _ => []) (fun _ => ⟨some "e", none⟩) 1 0 1 1 [] :=
  ⟨claim_C5_empty_page_amended.1 _ _ 1 0 0 0 [] ⟨200, "e"⟩ (by decide) (by decide)
      rfl rfl,
    claim_C5_empty_page_amended.2 _ _ 1 0 0 0 [] "e" (by decide) (by decide) rfl⟩

/-- C7, counterexample: a hard-failing first page (status 500) does not
terminate the query with zero results — the loop `continue`s (line 419),
and with limit 20 the second page's candidate is returned. -/
theorem claim_C7_counterexample :
    scrape_google_with_requests_html c7Extract c7Envs 20 =
      [⟨"T", "http://y/", "", 1, "google-requests-html"⟩] := by decide

/-- C7, amended: a hard error (non-200, non-soft-block status) on **any**
page — the first included — is skipped and pagination continues with the
next page; the execution never raises and returns whatever accumulates. -/
theorem claim_C7_hard_error_amended (extract : String → List RawCand)
    (envs : Nat → PageEnv) (limit n p att : Nat) (acc : List ResultRecord)
    (r : HttpResponse) (hlen : acc.length < limit)
    (hf : fetchPage (envs p) = .gotResponse r) (hs : r.status ≠ 200) :
    goHtml extract envs limit (n + 1) p att acc =
      goHtml extract envs limit n (p + 1) (att + 1) acc := by
  rw [goHtml, if_neg (Nat.not_le.mpr hlen), hf]
  simp [hs]

/-- Witness for the amended C7 on the first page (`p = 0`) with a 500
response. -/
theorem claim_C7_hard_error_amended_witness :
    goHtml (fun _ => []) (fun _ => ⟨.ok ⟨500, ""⟩, .exn, .exn⟩) 1 1 0 0 [] =
      goHtml (fun _ => []) (fun _ => ⟨.ok ⟨500, ""⟩, .exn, .exn⟩) 1 0 1 1 [] :=
  claim_C7_hard_error_amended _ _ 1 0 0 0 [] ⟨500, ""⟩ (by decide) (by decide)
    (by decide)

/-- C8, counterexample: for the subject domain `"wwww.example.com"` the
returned sequence contains the subject domain itself (the exclusion
compares against `domain.replace('www.', '') = "wexample.com"`, line 492),
contains the engine mirror domain `google.co.uk` (the engine test is the
substring `"google.com"` only, line 557), and even contains `"google.com"`
itself: the tab inside the link `"http://goo\tgle.com/x"` defeats the
substring test, but `urlsplit` removes it before parsing, so
`extract_domain` yields `"google.com"` and line 575 appends it. -/
theorem claim_C8_counterexample :
    get_similar_websites_with_python c8Links c8Envs "wwww.example.com" =
      ["wwww.example.com", "google.co.uk", "google.com"] ∧
      "wwww.example.com" ∈
        get_similar_websites_with_python c8Links c8Envs "wwww.example.com" ∧
      "google.com" ∈
        get_similar_websites_with_python c8Links c8Envs "wwww.example.com" :=
  ⟨by decide, by decide, by decide⟩

/-- C8, amended: for every subject domain the returned sequence has at
most 15 entries, pairwise distinct, and never contains the normalized
subject name (the subject with every `"www."` occurrence removed); the
literal subject domain, regional engine mirrors, and — through
sanitization-evading link text — even `"google.com"` itself can appear. -/
theorem claim_C8_competitors_amended (pageLinks : String → List String)
    (envs : Nat → SimQueryEnv) (domain : String) :
    (get_similar_websites_with_python pageLinks envs domain).length ≤ 15 ∧
      (get_similar_websites_with_python pageLinks envs domain).Nodup ∧
      (⟨stripWwwAll domain.data⟩ : String) ∉
        get_similar_websites_with_python pageLinks envs domain := by
  rcases simGo_inv pageLinks envs ⟨stripWwwAll domain.data⟩ 4 0 []
      (by simp) (by simp) with ⟨h1, h2⟩
  rw [get_similar_websites_with_python]
  refine ⟨List.length_take_le _ _,
    List.Nodup.sublist (List.take_sublist _ _) h1, ?_⟩
  intro hmem; exact h2 (List.take_subset _ _ hmem)

end ContentSpy
